import Mathlib

/-!
Verification of the `TimerModel` state machine from `timer_app.py`
(repository Time_catcher).

The core of the program is a timer state machine with two modes
(count-up / count-down) and four states (idle / running / paused /
finished).  Time values sampled from the monotonic clock are embedded
as rationals; the Python `int` target is embedded as an integer (the
setter clamps it to be non-negative).  Every method of the Python class
`TimerModel` is translated into a pure function on a `TimerModel`
structure; `snapshot`, which has one allowed side effect (the
running-to-finished auto-transition), returns the produced
`TimerSnapshot` together with the updated model.
-/

/-- Python `class TimerMode(str, Enum)`: count-up (`UP`) or count-down (`DOWN`). -/
inductive TimerMode where
  | UP
  | DOWN
deriving DecidableEq, Repr

/-- Python `class TimerState(str, Enum)`: the four states of the machine. -/
inductive TimerState where
  | IDLE
  | RUNNING
  | PAUSED
  | FINISHED
deriving DecidableEq, Repr

/-- Python `@dataclass` `class TimerSnapshot`: the value returned by `snapshot`. -/
structure TimerSnapshot where
  mode : TimerMode
  state : TimerState
  elapsed_seconds : ℚ
  remaining_seconds : Option ℚ
deriving DecidableEq, Repr

/-- The mutable fields of `class TimerModel` (`_mode`, `_state`,
`_target_seconds`, `_start_perf`, `_accumulated_elapsed`). -/
structure TimerModel where
  mode : TimerMode
  state : TimerState
  target_seconds : ℤ
  start_perf : Option ℚ
  accumulated_elapsed : ℚ
deriving DecidableEq, Repr

/-- Python `TimerModel.__init__`: mode `UP`, state `IDLE`, target `5 * 60`,
no start instant, zero accumulation. -/
def TimerModel.init : TimerModel where
  mode := TimerMode.UP
  state := TimerState.IDLE
  target_seconds := 5 * 60
  start_perf := none
  accumulated_elapsed := 0

/-- Python `TimerModel.reset`: state to `IDLE`, clear `_start_perf`, zero
`_accumulated_elapsed` (the target is untouched). -/
def TimerModel.reset (m : TimerModel) : TimerModel :=
  { m with
    state := TimerState.IDLE
    start_perf := none
    accumulated_elapsed := 0 }

/-- Python `TimerModel.set_mode`: early return if the mode is unchanged,
otherwise store the new mode and call `reset`. -/
def TimerModel.set_mode (m : TimerModel) (mode : TimerMode) : TimerModel :=
  if mode = m.mode then m
  else ({ m with mode := mode }).reset

/-- Python `TimerModel.set_target_seconds`: clamp the argument with
`max(0, int(seconds))`, store it, and when the mode is `DOWN` and the
state is `IDLE` or `FINISHED` also zero `_accumulated_elapsed`. -/
def TimerModel.set_target_seconds (m : TimerModel) (seconds : ℤ) : TimerModel :=
  let m' := { m with target_seconds := max 0 seconds }
  if m'.mode = TimerMode.DOWN ∧
      (m'.state = TimerState.IDLE ∨ m'.state = TimerState.FINISHED) then
    { m' with accumulated_elapsed := 0 }
  else m'

/-- Python `TimerModel.start`: early return when already `RUNNING`; zero the
accumulation when the state is `IDLE` or `FINISHED` (but not `PAUSED`);
then record `now` as `_start_perf` and go to `RUNNING`. -/
def TimerModel.start (m : TimerModel) (now : ℚ) : TimerModel :=
  if m.state = TimerState.RUNNING then m
  else
    let m' :=
      if m.state = TimerState.IDLE ∨ m.state = TimerState.FINISHED then
        { m with accumulated_elapsed := 0 }
      else m
    { m' with start_perf := some now, state := TimerState.RUNNING }

/-- Python `TimerModel.pause`: early return unless `RUNNING`; bank
`now - _start_perf` into the accumulation when `_start_perf` is set;
clear `_start_perf` and go to `PAUSED`. -/
def TimerModel.pause (m : TimerModel) (now : ℚ) : TimerModel :=
  if m.state = TimerState.RUNNING then
    let acc :=
      match m.start_perf with
      | some s => m.accumulated_elapsed + (now - s)
      | none => m.accumulated_elapsed
    { m with
      accumulated_elapsed := acc
      start_perf := none
      state := TimerState.PAUSED }
  else m

/-- Python `TimerModel.resume`: early return unless `PAUSED`; record `now` as
`_start_perf` and go to `RUNNING` (the accumulation is untouched). -/
def TimerModel.resume (m : TimerModel) (now : ℚ) : TimerModel :=
  if m.state = TimerState.PAUSED then
    { m with start_perf := some now, state := TimerState.RUNNING }
  else m

/-- The local variable `elapsed` computed at the top of
`TimerModel.snapshot`: the accumulation plus, when `RUNNING` with a set
`_start_perf`, the live interval `now - _start_perf`. -/
def TimerModel.elapsed_at (m : TimerModel) (now : ℚ) : ℚ :=
  match m.state, m.start_perf with
  | TimerState.RUNNING, some s => m.accumulated_elapsed + (now - s)
  | _, _ => m.accumulated_elapsed

/-- Python `TimerModel.snapshot`: compute the live elapsed time; in `UP` mode
return it with no remaining time and no mutation; in `DOWN` mode
compute `remaining = _target_seconds - elapsed`, clamp it at zero, and
when it was non-positive while `RUNNING` perform the auto-finish
transition (state to `FINISHED`, `_start_perf` cleared).  Returns the
snapshot together with the model after the call. -/
def TimerModel.snapshot (m : TimerModel) (now : ℚ) : TimerSnapshot × TimerModel :=
  let elapsed : ℚ := m.elapsed_at now
  if m.mode = TimerMode.UP then
    (⟨m.mode, m.state, elapsed, none⟩, m)
  else
    let remaining : ℚ := (m.target_seconds : ℚ) - elapsed
    if remaining ≤ 0 then
      let m' :=
        if m.state = TimerState.RUNNING then
          { m with state := TimerState.FINISHED, start_perf := none }
        else m
      (⟨m.mode, m'.state, elapsed, some 0⟩, m')
    else
      (⟨m.mode, m.state, elapsed, some remaining⟩, m)

/-- A count-down model with target 5 seconds, started at instant 0: the
configuration used by the spec's own auto-finish scenario. -/
def countdownFive : TimerModel :=
  ((TimerModel.init.set_mode TimerMode.DOWN).set_target_seconds 5).start 0

/-- C1.  The claim says `snapshot(now).elapsedSeconds` equals the time spent
in the Running state since the last reset/mode-switch, independent of
interleaved `snapshot` calls.  The code violates this: in count-down mode
with target 5, started at 0, a direct `snapshot(7)` reports elapsed `7`,
but with a `snapshot(6)` interleaved (which auto-finishes the timer after
6 seconds of running) the subsequent `snapshot(7)` reports elapsed `0` —
neither independent of the interleaving nor equal to the 6 seconds spent
Running, because the auto-finish branch clears `_start_perf` without
banking the live interval into `_accumulated_elapsed`.  (The claim's
pause/resume round-trip instance `start(0); pause(3); resume(3);
snapshot(7) = 7` does hold, first conjunct.) -/
theorem C1_elapsed_depends_on_interleaved_snapshots :
    ((((TimerModel.init.start 0).pause 3).resume 3).snapshot 7).1.elapsed_seconds = 7 ∧
    (countdownFive.snapshot 7).1.elapsed_seconds = 7 ∧
    (((countdownFive.snapshot 6).2.snapshot 7)).1.elapsed_seconds = 0 := by
  refine ⟨?_, ?_, ?_⟩
  · simp [TimerModel.init, TimerModel.start, TimerModel.pause, TimerModel.resume,
      TimerModel.elapsed_at, TimerModel.snapshot]
  · simp [countdownFive, TimerModel.init, TimerModel.set_mode, TimerModel.set_target_seconds,
      TimerModel.reset, TimerModel.start, TimerModel.elapsed_at, TimerModel.snapshot]
    norm_num
  · simp [countdownFive, TimerModel.init, TimerModel.set_mode, TimerModel.set_target_seconds,
      TimerModel.reset, TimerModel.start, TimerModel.elapsed_at, TimerModel.snapshot]
    norm_num
    simp

/-- C2.  The claim says that after the auto-finish transition every later
`snapshot`, with no intervening mutator, reports the same frozen elapsed
time and zero remaining.  The code violates this: with target 5 and
`start(0)`, `snapshot(5)` does transition Running to Finished and reports
elapsed `5`, remaining `0` (first three conjuncts, as claimed), but
`snapshot(10)` then reports elapsed `0` and remaining `5`: the auto-finish
clears `_start_perf` without adding the live interval to
`_accumulated_elapsed` (unlike `pause`), so the elapsed value falls back
to the pre-run accumulation instead of staying frozen. -/
theorem C2_autofinish_values_not_frozen :
    (countdownFive.snapshot 5).1.state = TimerState.FINISHED ∧
    (countdownFive.snapshot 5).1.elapsed_seconds = 5 ∧
    (countdownFive.snapshot 5).1.remaining_seconds = some 0 ∧
    ((countdownFive.snapshot 5).2.snapshot 10).1.state = TimerState.FINISHED ∧
    ((countdownFive.snapshot 5).2.snapshot 10).1.elapsed_seconds = 0 ∧
    ((countdownFive.snapshot 5).2.snapshot 10).1.remaining_seconds = some 5 := by
  simp [countdownFive, TimerModel.init, TimerModel.set_mode, TimerModel.set_target_seconds,
    TimerModel.reset, TimerModel.start, TimerModel.elapsed_at, TimerModel.snapshot]
  norm_num

/-- The snapshot value always reports the `elapsed` local as its
`elapsed_seconds`, in both modes and in every branch. -/
theorem snapshot_elapsed_eq (m : TimerModel) (now : ℚ) :
    (m.snapshot now).1.elapsed_seconds = m.elapsed_at now := by
  simp only [TimerModel.snapshot]
  split_ifs <;> rfl

/-- The snapshot value always reports the model's mode. -/
theorem snapshot_mode_eq (m : TimerModel) (now : ℚ) :
    (m.snapshot now).1.mode = m.mode := by
  simp only [TimerModel.snapshot]
  split_ifs <;> rfl

/-- C3.  In `UP` mode `snapshot` reports no remaining time and performs no
mutation; in `DOWN` mode it reports exactly
`max 0 (targetSeconds - elapsedSeconds)` as the remaining time (with
`elapsedSeconds` the value the same snapshot reports), including at the
boundary `elapsedSeconds = targetSeconds` where it reports `some 0`. -/
theorem C3_remaining_none_up_clamped_down (m : TimerModel) (now : ℚ) :
    ((m.snapshot now).1.remaining_seconds =
      if m.mode = TimerMode.UP then none
      else some (max 0 ((m.target_seconds : ℚ) - (m.snapshot now).1.elapsed_seconds))) ∧
    (m.mode = TimerMode.UP → (m.snapshot now).2 = m) := by
  rw [snapshot_elapsed_eq]
  obtain ⟨mo, st, tg, sp, acc⟩ := m
  cases mo
  · simp [TimerModel.snapshot]
  · refine ⟨?_, by simp⟩
    rcases le_or_lt ((tg : ℚ) -
        TimerModel.elapsed_at ⟨TimerMode.DOWN, st, tg, sp, acc⟩ now) 0 with hneg | hpos
    · simp [TimerModel.snapshot, hneg, max_eq_left hneg]
    · simp [TimerModel.snapshot, hpos.not_le, max_eq_right hpos.le]

/-- The data-model invariant of the spec: `_start_perf` is set if and only
if the state is `RUNNING`. -/
def TimerInv (m : TimerModel) : Prop :=
  m.start_perf.isSome = true ↔ m.state = TimerState.RUNNING

/-- C4.  The invariant "`startInstant` is non-null iff `state == Running`"
holds in the initial state and is preserved by every operation
(`set_mode`, `set_target_seconds`, `start`, `pause`, `resume`, `reset`,
`snapshot`) at every argument. -/
theorem C4_start_perf_iff_running (m : TimerModel) (h : TimerInv m)
    (mo : TimerMode) (s : ℤ) (t₁ t₂ t₃ t₄ : ℚ) :
    TimerInv TimerModel.init ∧
    TimerInv (m.set_mode mo) ∧
    TimerInv (m.set_target_seconds s) ∧
    TimerInv (m.start t₁) ∧
    TimerInv (m.pause t₂) ∧
    TimerInv (m.resume t₃) ∧
    TimerInv m.reset ∧
    TimerInv ((m.snapshot t₄).2) := by
  obtain ⟨mo', st, tg, sp, acc⟩ := m
  cases st <;> rcases sp with _ | x <;>
    simp_all [TimerInv, TimerModel.init, TimerModel.set_mode, TimerModel.reset,
      TimerModel.set_target_seconds, TimerModel.start, TimerModel.pause,
      TimerModel.resume, TimerModel.snapshot] <;>
    split_ifs <;> simp_all

/-- A closed instance of the invariant-preservation theorem: the invariant
holds at the initial model and after each operation applied to it. -/
theorem C4_start_perf_iff_running_witness :
    TimerInv TimerModel.init ∧
    TimerInv (TimerModel.init.set_mode TimerMode.DOWN) ∧
    TimerInv (TimerModel.init.set_target_seconds (-7)) ∧
    TimerInv (TimerModel.init.start 1) ∧
    TimerInv (TimerModel.init.pause 2) ∧
    TimerInv (TimerModel.init.resume 3) ∧
    TimerInv TimerModel.init.reset ∧
    TimerInv ((TimerModel.init.snapshot 4).2) :=
  C4_start_perf_iff_running TimerModel.init
    (by simp [TimerInv, TimerModel.init]) TimerMode.DOWN (-7) 1 2 3 4

/-- C5.  The state becomes `FINISHED` only through a `snapshot` call made
while the state is `RUNNING`, the mode is `DOWN` and the computed
remaining time is non-positive (`targetSeconds ≤ elapsed`); no other
operation ever moves a model into `FINISHED`, and under exactly those
conditions `snapshot` does finish the timer. -/
theorem C5_finished_only_by_countdown_snapshot (m : TimerModel)
    (mo : TimerMode) (s : ℤ) (t₁ t₂ t₃ t₄ : ℚ) :
    ((m.set_mode mo).state = TimerState.FINISHED → m.state = TimerState.FINISHED) ∧
    ((m.set_target_seconds s).state = TimerState.FINISHED → m.state = TimerState.FINISHED) ∧
    ((m.start t₁).state = TimerState.FINISHED → m.state = TimerState.FINISHED) ∧
    ((m.pause t₂).state = TimerState.FINISHED → m.state = TimerState.FINISHED) ∧
    ((m.resume t₃).state = TimerState.FINISHED → m.state = TimerState.FINISHED) ∧
    (m.reset.state = TimerState.FINISHED → m.state = TimerState.FINISHED) ∧
    ((m.snapshot t₄).2.state = TimerState.FINISHED →
      m.state = TimerState.FINISHED ∨
        (m.state = TimerState.RUNNING ∧ m.mode = TimerMode.DOWN ∧
          (m.target_seconds : ℚ) ≤ m.elapsed_at t₄)) ∧
    (m.state = TimerState.RUNNING ∧ m.mode = TimerMode.DOWN ∧
        (m.target_seconds : ℚ) ≤ m.elapsed_at t₄ →
      (m.snapshot t₄).2.state = TimerState.FINISHED) := by
  obtain ⟨mo', st, tg, sp, acc⟩ := m
  cases st <;> cases mo' <;>
    simp_all [TimerModel.set_mode, TimerModel.reset, TimerModel.set_target_seconds,
      TimerModel.start, TimerModel.pause, TimerModel.resume, TimerModel.snapshot,
      sub_nonpos] <;>
    split_ifs <;> simp_all

/-- C6.  `set_mode` with the current mode changes nothing; with a
different mode it stores the mode and performs a full reset (state to
`IDLE`, `_start_perf` cleared, accumulation zeroed), from every prior
state — the target is carried over unchanged. -/
theorem C6_set_mode_noop_or_full_reset (m : TimerModel) (mo : TimerMode) :
    m.set_mode m.mode = m ∧
    (mo ≠ m.mode →
      m.set_mode mo =
        { mode := mo, state := TimerState.IDLE, target_seconds := m.target_seconds,
          start_perf := none, accumulated_elapsed := 0 }) := by
  constructor
  · simp [TimerModel.set_mode]
  · intro h
    simp [TimerModel.set_mode, TimerModel.reset, h]

/-- C7.  `set_target_seconds` zeroes the accumulation exactly when the
mode is `DOWN` and the state is `IDLE` or `FINISHED`; the state and
`_start_perf` are never touched, and the stored target is the clamped
input. -/
theorem C7_set_target_resets_acc_iff_down_idle_finished (m : TimerModel) (s : ℤ) :
    ((m.set_target_seconds s).accumulated_elapsed =
      if m.mode = TimerMode.DOWN ∧
          (m.state = TimerState.IDLE ∨ m.state = TimerState.FINISHED) then 0
      else m.accumulated_elapsed) ∧
    (m.set_target_seconds s).state = m.state ∧
    (m.set_target_seconds s).start_perf = m.start_perf ∧
    (m.set_target_seconds s).target_seconds = max 0 s := by
  simp only [TimerModel.set_target_seconds]
  split_ifs <;> simp_all

/-- C8.  Every mutator is total: `set_target_seconds` clamps a negative
input to zero and always stores a non-negative target (as does the
initial model), and the invalid transitions — `start` while `RUNNING`,
`pause` while not `RUNNING`, `resume` while not `PAUSED` — leave the
model completely unchanged. -/
theorem C8_total_mutators_clamp_and_noop (m : TimerModel) (s : ℤ) (t₁ t₂ t₃ : ℚ) :
    0 ≤ (m.set_target_seconds s).target_seconds ∧
    (s < 0 → (m.set_target_seconds s).target_seconds = 0) ∧
    0 ≤ TimerModel.init.target_seconds ∧
    (m.state = TimerState.RUNNING → m.start t₁ = m) ∧
    (m.state ≠ TimerState.RUNNING → m.pause t₂ = m) ∧
    (m.state ≠ TimerState.PAUSED → m.resume t₃ = m) := by
  refine ⟨?_, ?_, ?_, ?_, ?_, ?_⟩
  · simp only [TimerModel.set_target_seconds]
    split_ifs <;> simp [le_max_left]
  · intro h
    simp only [TimerModel.set_target_seconds]
    split_ifs <;> simp [max_eq_left h.le]
  · norm_num [TimerModel.init]
  · intro h
    simp [TimerModel.start, h]
  · intro h
    simp [TimerModel.pause, h]
  · intro h
    simp [TimerModel.resume, h]

/-- C9.  `start` called while `PAUSED` keeps the banked accumulation (it
only sets `_start_perf` and moves to `RUNNING`, acting like `resume`),
while `start` from `IDLE` or `FINISHED` zeroes the accumulation before
running. -/
theorem C9_start_from_paused_keeps_accumulation (m : TimerModel) (t : ℚ) :
    (m.state = TimerState.PAUSED →
      m.start t = { m with start_perf := some t, state := TimerState.RUNNING }) ∧
    (m.state = TimerState.IDLE ∨ m.state = TimerState.FINISHED →
      m.start t =
        { m with
          accumulated_elapsed := 0
          start_perf := some t
          state := TimerState.RUNNING }) := by
  constructor
  · intro h
    simp [TimerModel.start, h]
  · rintro (h | h) <;> simp [TimerModel.start, h]

/-- C10.  `start`, `pause`, `resume`, `reset` and `snapshot` never change
the mode or the target; `set_mode` never changes the target and
`set_target_seconds` never changes the mode. -/
theorem C10_frame_mode_and_target (m : TimerModel) (mo : TimerMode)
    (s : ℤ) (t₁ t₂ t₃ t₄ : ℚ) :
    (m.start t₁).mode = m.mode ∧ (m.start t₁).target_seconds = m.target_seconds ∧
    (m.pause t₂).mode = m.mode ∧ (m.pause t₂).target_seconds = m.target_seconds ∧
    (m.resume t₃).mode = m.mode ∧ (m.resume t₃).target_seconds = m.target_seconds ∧
    m.reset.mode = m.mode ∧ m.reset.target_seconds = m.target_seconds ∧
    ((m.snapshot t₄).2).mode = m.mode ∧
    ((m.snapshot t₄).2).target_seconds = m.target_seconds ∧
    (m.set_mode mo).target_seconds = m.target_seconds ∧
    (m.set_target_seconds s).mode = m.mode := by
  refine ⟨?_, ?_, ?_, ?_, ?_, ?_, ?_, ?_, ?_, ?_, ?_, ?_⟩ <;>
    simp only [TimerModel.start, TimerModel.pause, TimerModel.resume, TimerModel.reset,
      TimerModel.snapshot, TimerModel.set_mode, TimerModel.set_target_seconds] <;>
    split_ifs <;> simp
